import Mathlib

/-!
Shallow embedding of the live_translation streaming pipeline.

This file embeds, in Lean 4, the behaviour of the repository's
session-oriented streaming pipeline:

* the WebSocket session controller (`websocket-server`:
  `handleConnection`, `handleMessage`, `handleStartCommand`,
  `handleStopCommand`, `handleSetLanguageCommand`, `handleAudioData`,
  `processAudioChunks`, `translateAndSend`, `handleClose`);
* the translator facade (`translators`: `translateStream`,
  `transcribeAudio`);
* the engine gateway services (`services/gemini.js` `transcribeAudio`
  and `services/gemini-live.js` `transcribeAudio`).

External engine calls (Gemini API requests) are modelled as oracle
parameters of type `EngineResult`: each call site consumes the outcome
the environment would have produced for that call.  Audio fragments are
byte lists; `Buffer.concat` is list flatten (`List.join`).  The mutable
per-session object is a `Session` structure threaded through each
handler; the process-wide `activeSessions` map is an association list.
-/

namespace LiveTranslation

/-- Outcome of one external engine (Gemini) call: either the text of the
response, or the thrown error's message. -/
inductive EngineResult where
  | ok (text : String)
  | err (msg : String)
deriving Repr, DecidableEq

/-- Per-session mutable state stored in `activeSessions`
(`websocket-server`, `handleConnection`): target language (defaults to
`"en"`), the ordered buffer of audio fragments, the transcribing flag,
and whether a Gemini chat handle (`session.geminiChat`) is attached. -/
structure Session where
  targetLanguage : String
  audioChunks : List (List Nat)
  isTranscribing : Bool
  hasChat : Bool
deriving Repr, DecidableEq

/-- The session as created on connection: `targetLanguage: 'en'`,
`audioChunks: []`, `isTranscribing: false`, no chat handle. -/
def Session.initial : Session :=
  { targetLanguage := "en", audioChunks := [], isTranscribing := false, hasChat := false }

/-- JavaScript's whitespace class: the characters matched by the regex
class `\s`, which is also the set `String.prototype.trim()` strips
(WhiteSpace plus LineTerminator code points). -/
def isJsSpace (c : Char) : Bool :=
  c.val = 9 ∨ c.val = 10 ∨ c.val = 11 ∨ c.val = 12 ∨ c.val = 13 ∨ c.val = 32 ∨
    c.val = 0xa0 ∨ c.val = 0x1680 ∨ (0x2000 ≤ c.val ∧ c.val ≤ 0x200a) ∨
    c.val = 0x2028 ∨ c.val = 0x2029 ∨ c.val = 0x202f ∨ c.val = 0x205f ∨
    c.val = 0x3000 ∨ c.val = 0xfeff

/-- JavaScript `String.prototype.trim()`: drop leading and trailing
whitespace. -/
def jsTrim (s : String) : String :=
  ⟨(((s.data.dropWhile isJsSpace).reverse.dropWhile isJsSpace).reverse : List Char)⟩

/-- JSON messages the server pushes to the client over the WebSocket. -/
inductive ServerMsg where
  | sessionMsg (sessionId : String)
  | started (message : String)
  | stopped (message : String)
  | languageSet (language : String)
  | transcription (text : String) (error : Bool)
  | translation (text : String) (sourceText : String) (targetLanguage : String) (error : Bool)
  | errorMsg (error : String)
deriving Repr, DecidableEq

/-- Inbound client frames, after `handleMessage`'s classification:
JSON control commands (`start`, `stop`, `setLanguage`, or an unknown
`type`), a frame whose `JSON.parse` throws (malformed), or a binary
audio frame. -/
inductive ClientMsg where
  | start (format : Option String)
  | stop
  | setLanguage (language : Option String)
  | unknown (typeName : String)
  | malformed (parseError : String)
  | audio (data : List Nat)
deriving Repr, DecidableEq

/-- Result of one handler invocation: the updated session, the messages
sent on the session's WebSocket in order, the audio payload submitted to
the engine in this step (payload bytes and mime type), if any, and
whether the handler closed the connection (no handler in the source ever
calls `ws.close`, so every constructor below sets it `false`). -/
structure StepOutcome where
  session : Session
  msgs : List ServerMsg
  submission : Option (List Nat × String)
  closed : Bool
deriving Repr, DecidableEq

/-- `translateAndSend` (`websocket-server`): translate `text` to
`targetLanguage` via a fresh model; on success send a `translation`
message with the trimmed translation, the source text and the target
language; on error send a flagged `translation` placeholder. -/
def translateAndSend (translator : EngineResult) (text targetLanguage : String) :
    List ServerMsg :=
  match translator with
  | .ok tr => [.translation (jsTrim tr) text targetLanguage false]
  | .err _ =>
      [.translation "Translation error. Please try again." text targetLanguage true]

/-- `processAudioChunks` (`websocket-server`): if the buffer is empty do
nothing; otherwise concatenate the chunks (`Buffer.concat`), clear the
buffer, submit the payload with the fixed mime type `'audio/webm'` via
`session.geminiChat.sendMessage`, and on success, when the trimmed
transcription is non-empty, send it as a `transcription` message and,
when `targetLanguage !== 'en'`, also translate it; on engine failure
send a flagged placeholder `transcription` message. -/
def processAudioChunks (engine translator : EngineResult) (s : Session) : StepOutcome :=
  if s.audioChunks = [] then
    ⟨s, [], none, false⟩
  else
    let combined := s.audioChunks.flatten
    let s1 := { s with audioChunks := [] }
    match engine with
    | .err _ =>
        ⟨s1, [.transcription "Audio processing error. Please try again." true],
          some (combined, "audio/webm"), false⟩
    | .ok t =>
        if jsTrim t = "" then
          ⟨s1, [], some (combined, "audio/webm"), false⟩
        else if s1.targetLanguage ≠ "en" then
          ⟨s1, .transcription (jsTrim t) false ::
                translateAndSend translator (jsTrim t) s1.targetLanguage,
            some (combined, "audio/webm"), false⟩
        else
          ⟨s1, [.transcription (jsTrim t) false], some (combined, "audio/webm"), false⟩

/-- `handleAudioData` (`websocket-server`): while not transcribing the
fragment is only logged; otherwise it is pushed onto `audioChunks`, and
when the buffer length reaches 5 the chunks are processed. -/
def handleAudioData (engine translator : EngineResult) (audioData : List Nat)
    (s : Session) : StepOutcome :=
  if s.isTranscribing = false then
    ⟨s, [], none, false⟩
  else
    let s1 := { s with audioChunks := s.audioChunks ++ [audioData] }
    if 5 ≤ s1.audioChunks.length then
      processAudioChunks engine translator s1
    else
      ⟨s1, [], none, false⟩

/-- `handleStartCommand` (`websocket-server`): a no-op while already
transcribing; otherwise set `isTranscribing`, clear the buffer, and
initialize the Gemini chat.  `initError` is the outcome of the model /
chat initialization: on success a `started` acknowledgment is sent; on
failure `isTranscribing` is reset and the thrown error surfaces as an
`error` message from `handleMessage`'s catch block.  The command's
`format` field is never read. -/
def handleStartCommand (initError : Option String) (format : Option String)
    (s : Session) : StepOutcome :=
  if s.isTranscribing then
    ⟨s, [], none, false⟩
  else
    match initError with
    | none =>
        ⟨{ s with isTranscribing := true, audioChunks := [], hasChat := true },
          [.started "Transcription started"], none, false⟩
    | some m =>
        ⟨{ s with isTranscribing := false, audioChunks := [] },
          [.errorMsg m], none, false⟩

/-- `handleStopCommand` (`websocket-server`): a no-op while not
transcribing; otherwise process any remaining chunks, then reset
`isTranscribing`, clear the buffer and send `stopped`. -/
def handleStopCommand (engine translator : EngineResult) (s : Session) : StepOutcome :=
  if s.isTranscribing = false then
    ⟨s, [], none, false⟩
  else
    let f :=
      if s.audioChunks.length > 0 then processAudioChunks engine translator s
      else ⟨s, [], none, false⟩
    ⟨{ f.session with isTranscribing := false, audioChunks := [] },
      f.msgs ++ [.stopped "Transcription stopped"], f.submission, false⟩

/-- `handleSetLanguageCommand` (`websocket-server`): with no (or an
empty, hence falsy) `language` field, only log; otherwise set
`targetLanguage` and acknowledge with `languageSet`. -/
def handleSetLanguageCommand (language : Option String) (s : Session) : StepOutcome :=
  match language with
  | none => ⟨s, [], none, false⟩
  | some l =>
      if l = "" then ⟨s, [], none, false⟩
      else ⟨{ s with targetLanguage := l }, [.languageSet l], none, false⟩

/-- `handleMessage` (`websocket-server`): dispatch on the classified
frame.  An unknown command type is only logged; a frame that fails to
parse reaches the catch block, which sends an `error` message with the
thrown message.  No branch closes the connection or touches the
registry. -/
def handleMessage (initError : Option String) (engine translator : EngineResult)
    (m : ClientMsg) (s : Session) : StepOutcome :=
  match m with
  | .start format => handleStartCommand initError format s
  | .stop => handleStopCommand engine translator s
  | .setLanguage l => handleSetLanguageCommand l s
  | .unknown _ => ⟨s, [], none, false⟩
  | .malformed e => ⟨s, [.errorMsg e], none, false⟩
  | .audio d => handleAudioData engine translator d s

/-- The process-wide `activeSessions` map, as an association list from
session id to session state. -/
def Registry := List (String × Session)

/-- `activeSessions.get(sessionId)`. -/
def regGet (r : Registry) (sid : String) : Option Session :=
  (List.find? (fun p => p.1 = sid) r).map (·.2)

/-- `activeSessions.set(sessionId, session)` for an id already present:
the stored object is mutated in place. -/
def regSet (r : Registry) (sid : String) (s : Session) : Registry :=
  List.map (fun p => if p.1 = sid then (sid, s) else p) r

/-- `activeSessions.delete(sessionId)` as performed by `handleClose`. -/
def regDelete (r : Registry) (sid : String) : Registry :=
  List.filter (fun p => ¬ p.1 = sid) r

/-- `handleMessage` at the registry level: a message for an id not in
the registry is logged and dropped; otherwise the session's handler runs
and the updated session is stored back. -/
def wsHandleMessage (initError : Option String) (engine translator : EngineResult)
    (m : ClientMsg) (sid : String) (r : Registry) :
    Registry × List ServerMsg × Bool :=
  match regGet r sid with
  | none => (r, [], false)
  | some s =>
      let o := handleMessage initError engine translator m s
      (regSet r sid o.session, o.msgs, o.closed)

/-- `handleClose` (`websocket-server`): discard the session's buffers
and remove it from the registry. -/
def wsHandleClose (sid : String) (r : Registry) : Registry :=
  regDelete r sid

/-! ## Engine gateway: `services/gemini-live.js` and `services/gemini.js` -/

/-- The canned transcript `services/gemini-live.js` returns when the
live call fails outside production. -/
def liveFallbackText : String :=
  "This is a fallback transcription. The Gemini Live API encountered an error processing your audio."

/-- The canned transcript `services/gemini.js` returns when its
generation call (or, outside production, anything else) fails. -/
def standardFallbackText : String :=
  "This is a fallback transcription. The Gemini API encountered an error processing your audio."

/-- `transcribeAudio` (`services/gemini-live.js`): run the chat-based
live call; on failure, outside production return `liveFallbackText`,
in production rethrow as a `Gemini Live API Error`.  `production` is
`process.env.NODE_ENV === 'production'`; `liveCall` is the outcome of
the `chat.sendMessage` exchange. -/
def geminiLiveTranscribeAudio (production : Bool) (liveCall : EngineResult) :
    Except String String :=
  match liveCall with
  | .ok t => .ok t
  | .err m =>
      if production then .error ("Gemini Live API Error: " ++ m)
      else .ok liveFallbackText

/-- `transcribeAudio` (`services/gemini.js`): base64-encode and build the
single-shot request (`outerError` is a failure in that prefix, before the
generation call); then run `model.generateContent` (`apiCall`).  A failed
generation call hits the inner catch, which returns
`standardFallbackText` unconditionally; a failure in the prefix hits the
outer catch, which returns the fallback outside production and rethrows
as a `Gemini API Transcription Error` in production. -/
def geminiTranscribeAudio (production : Bool) (outerError : Option String)
    (apiCall : EngineResult) : Except String String :=
  match outerError with
  | some m =>
      if production then .error ("Gemini API Transcription Error: " ++ m)
      else .ok standardFallbackText
  | none =>
      match apiCall with
      | .ok t => .ok t
      | .err _ => .ok standardFallbackText

/-- Result of the translator facade's `transcribeAudio`: the value
returned (or error propagated), and whether the standard-API fallback
path was invoked. -/
structure TranscribeOutcome where
  result : Except String String
  usedFallback : Bool
deriving Repr

/-- `transcribeAudio` (`translators`): try the Gemini Live service
first and return its trimmed transcription; if it throws, fall back to
the standard Gemini API service and return its trimmed transcription,
propagating its error if that also throws. -/
def transcribeAudio (production : Bool) (liveCall : EngineResult)
    (outerError : Option String) (apiCall : EngineResult) : TranscribeOutcome :=
  match geminiLiveTranscribeAudio production liveCall with
  | .ok t => ⟨.ok (jsTrim t), false⟩
  | .error _ =>
      match geminiTranscribeAudio production outerError apiCall with
      | .ok t => ⟨.ok (jsTrim t), true⟩
      | .error m => ⟨.error m, true⟩

/-! ## Sentence buffering: `translateStream` (`translators`) -/

/-- The test `textBuffer.match(/[.!?]\s*$/)` on a character list: some
position holds `.`, `!` or `?` and everything after it is whitespace,
i.e. the last non-whitespace character is a sentence terminal. -/
def sentenceCompleteL (l : List Char) : Bool :=
  match l.reverse.dropWhile isJsSpace with
  | [] => false
  | c :: _ => c = '.' ∨ c = '!' ∨ c = '?'

/-- `textBuffer.match(/[.!?]\s*$/)` as a predicate on the buffer. -/
def sentenceComplete (s : String) : Bool :=
  sentenceCompleteL s.data

/-- The mutable state of one `translateStream` call: the `textBuffer`
accumulator and the list of texts so far handed to the translation
engine, in submission order. -/
structure StreamState where
  textBuffer : String
  released : List String
deriving Repr, DecidableEq

/-- `translateStream`'s `'data'` handler: append the chunk to the
buffer; if the buffer now matches `/[.!?]\s*$/`, hand the whole buffer
to translation and reset it. -/
def streamData (st : StreamState) (chunk : String) : StreamState :=
  let b := st.textBuffer ++ chunk
  if sentenceComplete b then ⟨"", st.released ++ [b]⟩
  else ⟨b, st.released⟩

/-- `translateStream`'s `'end'` handler: if the buffer is non-empty,
hand the remainder to translation. -/
def streamEnd (st : StreamState) : StreamState :=
  if st.textBuffer.length > 0 then ⟨st.textBuffer, st.released ++ [st.textBuffer]⟩
  else st

/-- A whole `translateStream` run over an input stream delivering
`chunks` in order and then ending. -/
def translateStreamRun (chunks : List String) : StreamState :=
  streamEnd (chunks.foldl streamData ⟨"", []⟩)

/-! ## Helper lemmas -/

lemma processAudioChunks_of_empty (engine translator : EngineResult) (s : Session)
    (h : s.audioChunks = []) :
    processAudioChunks engine translator s = ⟨s, [], none, false⟩ := by
  unfold processAudioChunks
  simp [h]

lemma processAudioChunks_session_chunks (engine translator : EngineResult) (s : Session) :
    (processAudioChunks engine translator s).session.audioChunks = [] := by
  unfold processAudioChunks
  split
  · next h => exact h
  · cases engine with
    | err m => rfl
    | ok t =>
      dsimp only
      split
      · rfl
      · split <;> rfl

lemma processAudioChunks_session_eq (engine translator : EngineResult) (s : Session)
    (h : s.audioChunks ≠ []) :
    (processAudioChunks engine translator s).session = { s with audioChunks := [] } := by
  unfold processAudioChunks
  split
  · exact absurd ‹s.audioChunks = []› h
  · cases engine with
    | err m => rfl
    | ok t =>
      dsimp only
      split
      · rfl
      · split <;> rfl

lemma processAudioChunks_submission_eq (engine translator : EngineResult) (s : Session)
    (h : s.audioChunks ≠ []) :
    (processAudioChunks engine translator s).submission =
      some (s.audioChunks.flatten, "audio/webm") := by
  unfold processAudioChunks
  split
  · exact absurd ‹s.audioChunks = []› h
  · cases engine with
    | err m => rfl
    | ok t =>
      dsimp only
      split
      · rfl
      · split <;> rfl

lemma processAudioChunks_submission_mime (engine translator : EngineResult) (s : Session)
    (p : List Nat) (mt : String)
    (h : (processAudioChunks engine translator s).submission = some (p, mt)) :
    mt = "audio/webm" := by
  by_cases hc : s.audioChunks = []
  · rw [processAudioChunks_of_empty engine translator s hc] at h
    exact absurd h (by simp)
  · rw [processAudioChunks_submission_eq engine translator s hc] at h
    exact (Prod.mk.injEq _ _ _ _ ▸ (Option.some.injEq _ _ ▸ h)).2.symm

lemma processAudioChunks_closed (engine translator : EngineResult) (s : Session) :
    (processAudioChunks engine translator s).closed = false := by
  unfold processAudioChunks
  split
  · rfl
  · cases engine with
    | err m => rfl
    | ok t =>
      dsimp only
      split
      · rfl
      · split <;> rfl

lemma processAudioChunks_err_msgs (emsg : String) (translator : EngineResult) (s : Session)
    (h : s.audioChunks ≠ []) :
    (processAudioChunks (.err emsg) translator s).msgs =
      [.transcription "Audio processing error. Please try again." true] := by
  unfold processAudioChunks
  split
  · exact absurd ‹s.audioChunks = []› h
  · rfl

lemma wsHandleMessage_of_get (initError : Option String)
    (engine translator : EngineResult) (m : ClientMsg) (sid : String)
    (r : Registry) (s : Session) (h : regGet r sid = some s) :
    wsHandleMessage initError engine translator m sid r =
      (regSet r sid (handleMessage initError engine translator m s).session,
        (handleMessage initError engine translator m s).msgs,
        (handleMessage initError engine translator m s).closed) := by
  unfold wsHandleMessage
  rw [h]

lemma regGet_regSet (r : Registry) (sid : String) (s s' : Session)
    (h : regGet r sid = some s) :
    regGet (regSet r sid s') sid = some s' := by
  unfold regGet regSet at *
  induction r with
  | nil => simp at h
  | cons q r ih =>
    by_cases hq : q.1 = sid
    · rw [List.map_cons, if_pos hq, List.find?_cons_of_pos _ (by simp)]
      rfl
    · rw [List.map_cons, if_neg hq, List.find?_cons_of_neg _ (by simp [hq])]
      rw [List.find?_cons_of_neg _ (by simp [hq])] at h
      exact ih h

lemma handleStartCommand_submission (initError format : Option String) (s : Session) :
    (handleStartCommand initError format s).submission = none := by
  unfold handleStartCommand
  split
  · rfl
  · cases initError <;> rfl

lemma handleSetLanguageCommand_submission (language : Option String) (s : Session) :
    (handleSetLanguageCommand language s).submission = none := by
  cases language with
  | none => rfl
  | some l => by_cases hl : l = "" <;> simp [handleSetLanguageCommand, hl]

lemma handleStopCommand_submission_mime (engine translator : EngineResult) (s : Session)
    (p : List Nat) (mt : String)
    (h : (handleStopCommand engine translator s).submission = some (p, mt)) :
    mt = "audio/webm" := by
  unfold handleStopCommand at h
  split at h
  · exact absurd h (by simp)
  · dsimp only at h
    split at h
    · exact processAudioChunks_submission_mime engine translator s p mt h
    · exact absurd h (by simp)

lemma handleAudioData_submission_mime (engine translator : EngineResult)
    (d : List Nat) (s : Session) (p : List Nat) (mt : String)
    (h : (handleAudioData engine translator d s).submission = some (p, mt)) :
    mt = "audio/webm" := by
  unfold handleAudioData at h
  split at h
  · exact absurd h (by simp)
  · dsimp only at h
    split at h
    · exact processAudioChunks_submission_mime engine translator _ p mt h
    · exact absurd h (by simp)

/-! ## Claim theorems -/

/-- C6: an audio fragment arriving while `isTranscribing` is false is
ignored: the session (including its buffer) is unchanged, no message is
sent to the client, nothing is submitted to the engine, and the
connection is not closed; hence fragments are buffered only while
`isTranscribing` is true. -/
theorem audio_while_idle_ignored (engine translator : EngineResult)
    (d : List Nat) (s : Session) (h : s.isTranscribing = false) :
    handleAudioData engine translator d s = ⟨s, [], none, false⟩ := by
  unfold handleAudioData
  simp [h]

theorem audio_while_idle_ignored_witness :
    Session.initial.isTranscribing = false ∧
      handleAudioData (.ok "hello") (.ok "hola") [1, 2] Session.initial =
        ⟨Session.initial, [], none, false⟩ :=
  ⟨rfl, audio_while_idle_ignored (.ok "hello") (.ok "hola") [1, 2] Session.initial rfl⟩

/-- C9: `setLanguage` never changes `isTranscribing`, the audio buffer,
or the chat handle — only `targetLanguage` — and applying the same
command twice leaves the session in the same state as applying it
once. -/
theorem setLanguage_frame_and_idempotent (language : Option String) (s : Session) :
    (handleSetLanguageCommand language s).session.isTranscribing = s.isTranscribing
    ∧ (handleSetLanguageCommand language s).session.audioChunks = s.audioChunks
    ∧ (handleSetLanguageCommand language s).session.hasChat = s.hasChat
    ∧ (handleSetLanguageCommand language
        (handleSetLanguageCommand language s).session).session =
        (handleSetLanguageCommand language s).session := by
  cases language with
  | none => simp [handleSetLanguageCommand]
  | some l =>
    by_cases hl : l = "" <;> simp [handleSetLanguageCommand, hl]

/-- C10: the `start` command's `format` field has no effect (the handler
is the same function of the session for any two format values), and
every audio payload any message handler submits to the engine carries
the fixed mime type `'audio/webm'`. -/
theorem mime_fixed_and_format_ignored (initError : Option String)
    (engine translator : EngineResult) (f f' : Option String) (m : ClientMsg)
    (s : Session) (p : List Nat) (mt : String) :
    handleStartCommand initError f s = handleStartCommand initError f' s
    ∧ ((handleMessage initError engine translator m s).submission = some (p, mt) →
        mt = "audio/webm") := by
  constructor
  · rfl
  · intro h
    cases m with
    | start format =>
      simp only [handleMessage] at h
      rw [handleStartCommand_submission] at h
      exact absurd h (by simp)
    | stop =>
      simp only [handleMessage] at h
      exact handleStopCommand_submission_mime engine translator s p mt h
    | setLanguage l =>
      simp only [handleMessage] at h
      rw [handleSetLanguageCommand_submission] at h
      exact absurd h (by simp)
    | unknown t => exact absurd h (by simp [handleMessage])
    | malformed e => exact absurd h (by simp [handleMessage])
    | audio d =>
      simp only [handleMessage] at h
      exact handleAudioData_submission_mime engine translator d s p mt h

theorem mime_fixed_and_format_ignored_witness :
    (handleMessage none (.ok "hi") (.ok "hola") (.audio [5])
        ⟨"en", [[1], [2], [3], [4]], true, true⟩).submission =
      some ([1, 2, 3, 4, 5], "audio/webm")
    ∧ "audio/webm" = "audio/webm" :=
  ⟨by decide,
    (mime_fixed_and_format_ignored none (.ok "hi") (.ok "hola") none none
      (.audio [5]) ⟨"en", [[1], [2], [3], [4]], true, true⟩
      [1, 2, 3, 4, 5] "audio/webm").2 (by decide)⟩

/-- C4: a `stop` received while transcribing first flushes any
non-empty buffer (the whole pending buffer is submitted, before the
state transition), then resets `isTranscribing`, clears the buffer and
emits `stopped` as the final message; a `stop` while idle is a no-op,
and a `start` while already transcribing is a no-op. -/
theorem stop_flushes_then_idle (engine translator : EngineResult)
    (initError format : Option String) (s : Session) :
    (s.isTranscribing = true → s.audioChunks ≠ [] →
      (handleStopCommand engine translator s).submission =
        some (s.audioChunks.flatten, "audio/webm"))
    ∧ (s.isTranscribing = true →
        (handleStopCommand engine translator s).session.isTranscribing = false
        ∧ (handleStopCommand engine translator s).session.audioChunks = []
        ∧ ∃ pre, (handleStopCommand engine translator s).msgs =
            pre ++ [.stopped "Transcription stopped"])
    ∧ (s.isTranscribing = false →
        handleStopCommand engine translator s = ⟨s, [], none, false⟩)
    ∧ (s.isTranscribing = true →
        handleStartCommand initError format s = ⟨s, [], none, false⟩) := by
  refine ⟨?_, ?_, ?_, ?_⟩
  · intro ht hne
    unfold handleStopCommand
    rw [if_neg (by simp [ht])]
    dsimp only
    rw [if_pos (by simpa [List.length_pos] using hne)]
    exact processAudioChunks_submission_eq engine translator s hne
  · intro ht
    unfold handleStopCommand
    rw [if_neg (by simp [ht])]
    exact ⟨rfl, rfl, _, rfl⟩
  · intro ht
    unfold handleStopCommand
    rw [if_pos ht]
  · intro ht
    unfold handleStartCommand
    rw [if_pos ht]

theorem stop_flushes_then_idle_witness :
    (⟨"en", [[1], [2]], true, true⟩ : Session).isTranscribing = true
    ∧ (⟨"en", [[1], [2]], true, true⟩ : Session).audioChunks ≠ []
    ∧ (handleStopCommand (.ok "hi") (.ok "hola") ⟨"en", [[1], [2]], true, true⟩).submission =
        some (([[1], [2]] : List (List Nat)).flatten, "audio/webm")
    ∧ (handleStopCommand (.ok "hi") (.ok "hola") ⟨"en", [[1], [2]], true, true⟩).session.isTranscribing = false :=
  ⟨rfl, by decide,
    (stop_flushes_then_idle (.ok "hi") (.ok "hola") none none
      ⟨"en", [[1], [2]], true, true⟩).1 rfl (by decide),
    ((stop_flushes_then_idle (.ok "hi") (.ok "hola") none none
      ⟨"en", [[1], [2]], true, true⟩).2.1 rfl).1⟩

/-- C5: message handling preserves the invariant that the buffer holds
at most 4 fragments; from such a state, an appended fragment triggers a
flush exactly when the buffer reaches length 5 (i.e. it held exactly 4
before the append); and every flush submits the buffered fragments
concatenated in FIFO append order and resets the buffer to empty. -/
theorem flush_threshold_exact (initError : Option String)
    (engine translator : EngineResult) (d : List Nat) (m : ClientMsg) (s : Session) :
    (s.audioChunks.length ≤ 4 →
      (handleMessage initError engine translator m s).session.audioChunks.length ≤ 4)
    ∧ (s.isTranscribing = true → s.audioChunks.length ≤ 4 →
        ((handleAudioData engine translator d s).submission.isSome ↔
          s.audioChunks.length = 4))
    ∧ (s.isTranscribing = true → s.audioChunks.length = 4 →
        (handleAudioData engine translator d s).submission =
          some ((s.audioChunks ++ [d]).flatten, "audio/webm")
        ∧ (handleAudioData engine translator d s).session.audioChunks = [])
    ∧ (s.audioChunks ≠ [] →
        (processAudioChunks engine translator s).submission =
          some (s.audioChunks.flatten, "audio/webm")
        ∧ (processAudioChunks engine translator s).session.audioChunks = []) := by
  refine ⟨?_, ?_, ?_, ?_⟩
  · intro hle
    cases m with
    | start format =>
      simp only [handleMessage]
      unfold handleStartCommand
      split
      · exact hle
      · cases initError <;> simp
    | stop =>
      simp only [handleMessage]
      unfold handleStopCommand
      split
      · exact hle
      · simp
    | setLanguage l =>
      simp only [handleMessage]
      cases l with
      | none => exact hle
      | some x =>
        by_cases hx : x = "" <;> simp [handleSetLanguageCommand, hx, hle]
    | unknown t => exact hle
    | malformed e => exact hle
    | audio d' =>
      simp only [handleMessage]
      unfold handleAudioData
      split
      · exact hle
      · dsimp only
        split
        · rw [processAudioChunks_session_chunks]
          simp
        · next hlt =>
          simp only [List.length_append, List.length_cons, List.length_nil] at hlt ⊢
          omega
  · intro ht hle
    unfold handleAudioData
    rw [if_neg (by simp [ht])]
    dsimp only
    constructor
    · intro hsome
      by_contra hne
      rw [if_neg (by simp only [List.length_append, List.length_cons,
        List.length_nil]; omega)] at hsome
      simp at hsome
    · intro h4
      rw [if_pos (by simp [h4])]
      rw [processAudioChunks_submission_eq _ _ _ (by simp)]
      simp
  · intro ht h4
    unfold handleAudioData
    rw [if_neg (by simp [ht]), if_pos (by simp [h4])]
    exact ⟨processAudioChunks_submission_eq _ _ _ (by simp),
      processAudioChunks_session_chunks _ _ _⟩
  · intro hne
    exact ⟨processAudioChunks_submission_eq _ _ _ hne,
      processAudioChunks_session_chunks _ _ _⟩

theorem flush_threshold_exact_witness :
    (⟨"en", [[1], [2], [3], [4]], true, true⟩ : Session).isTranscribing = true
    ∧ (⟨"en", [[1], [2], [3], [4]], true, true⟩ : Session).audioChunks.length = 4
    ∧ (handleAudioData (.ok "hi") (.ok "hola") [5]
        ⟨"en", [[1], [2], [3], [4]], true, true⟩).submission =
        some ((([[1], [2], [3], [4]] : List (List Nat)) ++ [[5]]).flatten, "audio/webm")
    ∧ (handleAudioData (.ok "hi") (.ok "hola") [5]
        ⟨"en", [[1], [2], [3], [4]], true, true⟩).session.audioChunks = [] :=
  ⟨rfl, rfl,
    ((flush_threshold_exact none (.ok "hi") (.ok "hola") [5] .stop
      ⟨"en", [[1], [2], [3], [4]], true, true⟩).2.2.1 rfl rfl).1,
    ((flush_threshold_exact none (.ok "hi") (.ok "hola") [5] .stop
      ⟨"en", [[1], [2], [3], [4]], true, true⟩).2.2.1 rfl rfl).2⟩

/-- C1: when the engine transcription call fails during a flush, the
client receives exactly one `transcription` message flagged
`error := true` with the generic placeholder text, the connection is not
closed, the session is still present in the registry (with its buffer
cleared and still transcribing), and a subsequent message — here a
`stop` — is still processed normally; moreover every flush of a
non-empty buffer against a failing engine yields that flagged message
and leaves the connection open. -/
theorem flush_error_keeps_session_alive (r : Registry) (sid : String) (s : Session)
    (emsg : String) (d : List Nat) (translator engine' translator' : EngineResult)
    (h1 : regGet r sid = some s) (h2 : s.isTranscribing = true)
    (h3 : s.audioChunks.length = 4) :
    (wsHandleMessage none (.err emsg) translator (.audio d) sid r).2.1 =
      [.transcription "Audio processing error. Please try again." true]
    ∧ (wsHandleMessage none (.err emsg) translator (.audio d) sid r).2.2 = false
    ∧ regGet (wsHandleMessage none (.err emsg) translator (.audio d) sid r).1 sid =
        some { s with audioChunks := [] }
    ∧ (wsHandleMessage none engine' translator' .stop sid
        (wsHandleMessage none (.err emsg) translator (.audio d) sid r).1).2.1 =
        [.stopped "Transcription stopped"]
    ∧ (∀ s2 : Session, s2.audioChunks ≠ [] →
        (processAudioChunks (.err emsg) translator s2).msgs =
          [.transcription "Audio processing error. Please try again." true]
        ∧ (processAudioChunks (.err emsg) translator s2).closed = false) := by
  have hstep : handleMessage none (.err emsg) translator (.audio d) s =
      processAudioChunks (.err emsg) translator
        { s with audioChunks := s.audioChunks ++ [d] } := by
    simp only [handleMessage]
    unfold handleAudioData
    rw [if_neg (by simp [h2]), if_pos (by simp [h3])]
  have hne : ({ s with audioChunks := s.audioChunks ++ [d] } : Session).audioChunks ≠ [] := by
    simp
  have hsess : (handleMessage none (.err emsg) translator (.audio d) s).session =
      { s with audioChunks := [] } := by
    rw [hstep, processAudioChunks_session_eq _ _ _ hne]
  have hout := wsHandleMessage_of_get none (.err emsg) translator (.audio d) sid r s h1
  have hget : regGet (wsHandleMessage none (.err emsg) translator (.audio d) sid r).1 sid =
      some { s with audioChunks := [] } := by
    rw [hout]
    exact hsess ▸ regGet_regSet r sid s _ h1
  refine ⟨?_, ?_, hget, ?_, ?_⟩
  · rw [hout]
    dsimp only
    rw [hstep]
    exact processAudioChunks_err_msgs emsg translator _ hne
  · rw [hout]
    dsimp only
    rw [hstep]
    exact processAudioChunks_closed _ _ _
  · rw [wsHandleMessage_of_get none engine' translator' .stop sid _ _ hget]
    dsimp only
    simp only [handleMessage]
    unfold handleStopCommand
    rw [if_neg (by simp [h2])]
    dsimp only
    rw [if_neg (by simp)]
    rfl
  · intro s2 hne2
    exact ⟨processAudioChunks_err_msgs emsg translator s2 hne2,
      processAudioChunks_closed _ _ _⟩

theorem flush_error_keeps_session_alive_witness :
    regGet [("abc", ⟨"en", [[1], [2], [3], [4]], true, true⟩)] "abc" =
      some ⟨"en", [[1], [2], [3], [4]], true, true⟩
    ∧ (⟨"en", [[1], [2], [3], [4]], true, true⟩ : Session).isTranscribing = true
    ∧ (⟨"en", [[1], [2], [3], [4]], true, true⟩ : Session).audioChunks.length = 4
    ∧ (wsHandleMessage none (.err "boom") (.ok "hola") (.audio [5]) "abc"
        [("abc", ⟨"en", [[1], [2], [3], [4]], true, true⟩)]).2.1 =
        [.transcription "Audio processing error. Please try again." true]
    ∧ regGet (wsHandleMessage none (.err "boom") (.ok "hola") (.audio [5]) "abc"
        [("abc", ⟨"en", [[1], [2], [3], [4]], true, true⟩)]).1 "abc" =
        some { (⟨"en", [[1], [2], [3], [4]], true, true⟩ : Session) with audioChunks := [] } :=
  ⟨by decide, rfl, rfl,
    (flush_error_keeps_session_alive [("abc", ⟨"en", [[1], [2], [3], [4]], true, true⟩)]
      "abc" ⟨"en", [[1], [2], [3], [4]], true, true⟩ "boom" [5]
      (.ok "hola") (.ok "t") (.ok "u") (by decide) rfl rfl).1,
    (flush_error_keeps_session_alive [("abc", ⟨"en", [[1], [2], [3], [4]], true, true⟩)]
      "abc" ⟨"en", [[1], [2], [3], [4]], true, true⟩ "boom" [5]
      (.ok "hola") (.ok "t") (.ok "u") (by decide) rfl rfl).2.2.1⟩

/-- C3 (counterexample): a successful flush whose transcript trims to
the empty string emits no message at all — in particular no
`transcription` message — even though the flush really happened (the
payload was submitted to the engine). -/
theorem successful_flush_messages_counterexample :
    (processAudioChunks (.ok "   ") (.ok "hola") ⟨"es", [[1]], true, true⟩).msgs = []
    ∧ (processAudioChunks (.ok "   ") (.ok "hola") ⟨"es", [[1]], true, true⟩).submission =
        some ([1], "audio/webm") := by
  decide

/-- C3 (amended): on a successful flush, a `transcription` message with
the trimmed transcript is emitted iff the trimmed transcript is
non-empty (a whitespace-only transcript emits nothing); when the trimmed
transcript is non-empty and `targetLanguage` differs from `'en'`,
translation is additionally invoked and a `translation` message with the
translated text, the source text and the target language follows. -/
theorem successful_flush_messages (t trText : String) (translator : EngineResult)
    (s : Session) (hne : s.audioChunks ≠ []) :
    (jsTrim t = "" → (processAudioChunks (.ok t) translator s).msgs = [])
    ∧ (jsTrim t ≠ "" → s.targetLanguage = "en" →
        (processAudioChunks (.ok t) translator s).msgs =
          [.transcription (jsTrim t) false])
    ∧ (jsTrim t ≠ "" → s.targetLanguage ≠ "en" → translator = .ok trText →
        (processAudioChunks (.ok t) translator s).msgs =
          [.transcription (jsTrim t) false,
            .translation (jsTrim trText) (jsTrim t) s.targetLanguage false])
    ∧ (jsTrim t ≠ "" → s.targetLanguage ≠ "en" → ∀ em, translator = .err em →
        (processAudioChunks (.ok t) translator s).msgs =
          [.transcription (jsTrim t) false,
            .translation "Translation error. Please try again." (jsTrim t)
              s.targetLanguage true]) := by
  refine ⟨?_, ?_, ?_, ?_⟩
  · intro hz
    unfold processAudioChunks
    rw [if_neg hne]
    dsimp only
    rw [if_pos hz]
  · intro hz hen
    unfold processAudioChunks
    rw [if_neg hne]
    dsimp only
    rw [if_neg hz, if_neg (by simp [hen])]
  · intro hz hen htr
    subst htr
    unfold processAudioChunks
    rw [if_neg hne]
    dsimp only
    rw [if_neg hz, if_pos (by simpa using hen)]
    rfl
  · intro hz hen em htr
    subst htr
    unfold processAudioChunks
    rw [if_neg hne]
    dsimp only
    rw [if_neg hz, if_pos (by simpa using hen)]
    rfl

theorem successful_flush_messages_witness :
    jsTrim "hello." ≠ ""
    ∧ (⟨"es", [[1]], true, true⟩ : Session).audioChunks ≠ []
    ∧ (⟨"es", [[1]], true, true⟩ : Session).targetLanguage ≠ "en"
    ∧ (processAudioChunks (.ok "hello.") (.ok " hola. ") ⟨"es", [[1]], true, true⟩).msgs =
        [.transcription (jsTrim "hello.") false,
          .translation (jsTrim " hola. ") (jsTrim "hello.") "es" false] :=
  ⟨by decide, by decide, by decide,
    (successful_flush_messages "hello." " hola. " (.ok " hola. ")
      ⟨"es", [[1]], true, true⟩ (by decide)).2.2.1 (by decide) (by decide) rfl⟩

/-- C8 (counterexample): a control message with an unknown command type
(`bogus`) produces no message at all to the client — the source only
logs it — so the claim that it causes an `error` message to be sent
fails; the session and connection are untouched. -/
theorem protocol_errors_counterexample :
    handleMessage none (.ok "hi") (.ok "hola") (.unknown "bogus")
        ⟨"en", [], false, false⟩ =
      ⟨⟨"en", [], false, false⟩, [], none, false⟩ := rfl

/-- C8 (amended): a malformed client message is answered with an `error`
message carrying the parse error, while a control message with an
unknown command type is only logged and answered with nothing; in both
cases the session state is unchanged and the connection stays open. -/
theorem protocol_errors_keep_connection (initError : Option String)
    (engine translator : EngineResult) (s : Session) (parseError typeName : String) :
    handleMessage initError engine translator (.malformed parseError) s =
      ⟨s, [.errorMsg parseError], none, false⟩
    ∧ handleMessage initError engine translator (.unknown typeName) s =
      ⟨s, [], none, false⟩ :=
  ⟨rfl, rfl⟩

/-- C2 (counterexample): in production mode, when the live path fails
and the single-shot fallback's generation call also fails, the gateway
returns the labeled placeholder transcript instead of propagating an
`EngineError` — refuting the claim that the placeholder is returned only
in non-production mode and that production propagates the error. -/
theorem transcribe_fallback_counterexample :
    (transcribeAudio true (.err "live failure") none (.err "api failure")).result =
      .ok (jsTrim standardFallbackText)
    ∧ (transcribeAudio true (.err "live failure") none (.err "api failure")).usedFallback
        = true :=
  ⟨rfl, rfl⟩

/-- C2 (amended): the primary path uses the live multi-turn context and
the single-shot fallback runs exactly when the live path errors, which
happens only in production — outside production a failed live call
itself returns the labeled live placeholder without consulting the
fallback.  When both engine calls fail in production the fallback's
failed generation call still yields the labeled placeholder; an
`EngineError` propagates in production only when the fallback fails
before its generation call. -/
theorem transcribe_fallback_chain (production : Bool) (live apiCall : EngineResult)
    (outerError : Option String) (t em em2 em3 : String) :
    (live = .ok t →
      transcribeAudio production live outerError apiCall = ⟨.ok (jsTrim t), false⟩)
    ∧ ((transcribeAudio production live outerError apiCall).usedFallback = true ↔
        production = true ∧ ∃ m, live = .err m)
    ∧ (production = false → live = .err em →
        transcribeAudio production live outerError apiCall =
          ⟨.ok (jsTrim liveFallbackText), false⟩)
    ∧ (production = true → live = .err em → outerError = none → apiCall = .err em2 →
        transcribeAudio production live outerError apiCall =
          ⟨.ok (jsTrim standardFallbackText), true⟩)
    ∧ (production = true → live = .err em → outerError = some em3 →
        transcribeAudio production live outerError apiCall =
          ⟨.error ("Gemini API Transcription Error: " ++ em3), true⟩) := by
  refine ⟨?_, ?_, ?_, ?_, ?_⟩
  · rintro rfl
    rfl
  · cases production with
    | false =>
      cases live with
      | ok t' => simp [transcribeAudio, geminiLiveTranscribeAudio]
      | err m' => simp [transcribeAudio, geminiLiveTranscribeAudio]
    | true =>
      cases live with
      | ok t' => simp [transcribeAudio, geminiLiveTranscribeAudio]
      | err m' =>
        cases outerError <;> cases apiCall <;>
          simp [transcribeAudio, geminiLiveTranscribeAudio, geminiTranscribeAudio]
  · rintro rfl rfl
    rfl
  · rintro rfl rfl rfl rfl
    rfl
  · rintro rfl rfl rfl
    rfl

theorem transcribe_fallback_chain_witness :
    (true : Bool) = true
    ∧ (EngineResult.err "live failure" : EngineResult) = .err "live failure"
    ∧ (none : Option String) = none
    ∧ (EngineResult.err "api failure" : EngineResult) = .err "api failure"
    ∧ transcribeAudio true (.err "live failure") none (.err "api failure") =
        ⟨.ok (jsTrim standardFallbackText), true⟩ :=
  ⟨rfl, rfl, rfl, rfl,
    (transcribe_fallback_chain true (.err "live failure") (.err "api failure") none
      "t" "live failure" "api failure" "z").2.2.2.1 rfl rfl rfl rfl⟩

/-! ## Sentence buffer lemmas -/

lemma data_empty_string : ("" : String).data = [] := rfl

lemma string_length_data (s : String) : s.length = s.data.length := rfl

lemma dropWhile_append_all {α : Type} (p : α → Bool) (a : List α) (b : α) (t : List α)
    (ha : ∀ x ∈ a, p x = true) (hb : p b = false) :
    (a ++ b :: t).dropWhile p = b :: t := by
  induction a with
  | nil => simp [List.dropWhile_cons, hb]
  | cons x a ih =>
    have hx := ha x (by simp)
    simp only [List.cons_append, List.dropWhile_cons, hx, if_true]
    exact ih (fun y hy => ha y (by simp [hy]))

lemma sentenceCompleteL_iff (l : List Char) :
    sentenceCompleteL l = true ↔
      ∃ l1 c l2, l = l1 ++ c :: l2 ∧ (c = '.' ∨ c = '!' ∨ c = '?')
        ∧ ∀ x ∈ l2, isJsSpace x = true := by
  unfold sentenceCompleteL
  constructor
  · intro h
    rcases hr : l.reverse.dropWhile isJsSpace with _ | ⟨c, t⟩
    · rw [hr] at h
      simp at h
    · rw [hr] at h
      refine ⟨t.reverse, c, (l.reverse.takeWhile isJsSpace).reverse, ?_, by simpa using h, ?_⟩
      · have hsplit : l.reverse.takeWhile isJsSpace ++ (c :: t) = l.reverse := by
          rw [← hr]
          exact List.takeWhile_append_dropWhile isJsSpace l.reverse
        calc l = l.reverse.reverse := (List.reverse_reverse l).symm
          _ = (l.reverse.takeWhile isJsSpace ++ (c :: t)).reverse := by rw [hsplit]
          _ = t.reverse ++ c :: (l.reverse.takeWhile isJsSpace).reverse := by
                simp [List.reverse_append]
      · intro x hx
        exact List.mem_takeWhile_imp (by simpa using hx)
  · rintro ⟨l1, c, l2, rfl, hc, hl2⟩
    have hcns : isJsSpace c = false := by
      rcases hc with rfl | rfl | rfl <;> decide
    have : (l1 ++ c :: l2).reverse = l2.reverse ++ c :: l1.reverse := by
      simp [List.reverse_append]
    rw [this, dropWhile_append_all isJsSpace l2.reverse c l1.reverse
      (fun x hx => hl2 x (by simpa using hx)) hcns]
    simpa using hc

lemma streamData_foldl_inv (chunks : List String) (st : StreamState) :
    ((chunks.foldl streamData st).released.map String.data).flatten
        ++ (chunks.foldl streamData st).textBuffer.data
      = (st.released.map String.data).flatten ++ st.textBuffer.data
        ++ (chunks.map String.data).flatten := by
  induction chunks generalizing st with
  | nil => simp
  | cons c cs ih =>
    rw [List.foldl_cons, ih]
    unfold streamData
    dsimp only
    split
    · simp [String.data_append, data_empty_string]
    · simp [String.data_append]

/-- C7: the streaming-text path releases the buffered text exactly when
it matches `/[.!?]\s*$/` — i.e. its character sequence ends with one of
`.`, `!`, `?` followed only by trailing whitespace — resetting the
buffer to empty on release; at end of input any non-empty residual
buffer is released even when the predicate fails; and across a whole
run the concatenation of released texts equals the concatenation of the
input chunks, so no text fragment is discarded. -/
theorem sentence_release_exact (chunks : List String) (st : StreamState)
    (chunk s : String) :
    (sentenceComplete s = true ↔
      ∃ l1 c l2, s.data = l1 ++ c :: l2 ∧ (c = '.' ∨ c = '!' ∨ c = '?')
        ∧ ∀ x ∈ l2, isJsSpace x = true)
    ∧ (sentenceComplete (st.textBuffer ++ chunk) = true →
        streamData st chunk = ⟨"", st.released ++ [st.textBuffer ++ chunk]⟩)
    ∧ (sentenceComplete (st.textBuffer ++ chunk) = false →
        streamData st chunk = ⟨st.textBuffer ++ chunk, st.released⟩)
    ∧ (st.textBuffer ≠ "" →
        (streamEnd st).released = st.released ++ [st.textBuffer])
    ∧ String.join (translateStreamRun chunks).released = String.join chunks := by
  refine ⟨sentenceCompleteL_iff s.data, ?_, ?_, ?_, ?_⟩
  · intro h
    unfold streamData
    rw [if_pos h]
  · intro h
    unfold streamData
    rw [if_neg (by simp [h])]
  · intro h
    have hne : st.textBuffer.data ≠ [] := fun hd => h (String.ext hd)
    have hlen : st.textBuffer.length > 0 := by
      rw [string_length_data]
      exact List.length_pos.mpr hne
    unfold streamEnd
    rw [if_pos hlen]
  · have hinv := streamData_foldl_inv chunks ⟨"", []⟩
    simp only [List.map_nil, List.flatten_nil, data_empty_string, List.nil_append,
      List.append_nil] at hinv
    apply String.ext
    rw [String.join_eq, String.join_eq]
    show ((translateStreamRun chunks).released.map String.data).flatten =
      ((chunks.map String.data)).flatten
    unfold translateStreamRun streamEnd
    split
    · next hpos =>
      simp only [List.map_append, List.flatten_append, List.map_cons, List.map_nil,
        List.flatten_cons, List.flatten_nil, List.append_nil]
      exact hinv
    · next hpos =>
      have hdata : (chunks.foldl streamData ⟨"", []⟩).textBuffer.data = [] := by
        have hz : (chunks.foldl streamData ⟨"", []⟩).textBuffer.data.length = 0 := by
          rw [← string_length_data]
          omega
        exact List.length_eq_zero.mp hz
      rw [hdata, List.append_nil] at hinv
      exact hinv

theorem sentence_release_exact_witness :
    sentenceComplete ("Hello" ++ " world.  ") = true
    ∧ streamData ⟨"Hello", []⟩ " world.  " = ⟨"", [] ++ ["Hello" ++ " world.  "]⟩
    ∧ ("tail" : String) ≠ ""
    ∧ (streamEnd ⟨"tail", ["a."]⟩).released = ["a."] ++ ["tail"] :=
  ⟨by decide,
    (sentence_release_exact [] ⟨"Hello", []⟩ " world.  " "x").2.1 (by decide),
    by decide,
    (sentence_release_exact [] ⟨"tail", ["a."]⟩ "y" "x").2.2.2.1 (by decide)⟩

end LiveTranslation
